import Mathlib

/-!
Shallow embedding of the Flappy Bird clone (single game script plus an asset
manifest).  Game logic runs in a 400×600 virtual coordinate space; all JS
numbers are modelled as exact rationals (the constants 0.3, -7.5, 1.8 are
exact decimal fractions, so `ℚ` reproduces the float arithmetic on the
magnitudes the game reaches), the score as `ℕ`, and every call to
`Math.random()` as an explicit rational parameter in `[0, 1)`.
DOM/canvas/audio effects are out of scope; `endGame`'s state effect is the
flag flip, and the scheduling of `requestAnimationFrame` callbacks is
modelled separately as a small transition system for the lifecycle claims.
-/

namespace FlappyBird

/-- Virtual resolution width (`VIRTUAL_WIDTH = 400`). -/
def VIRTUAL_WIDTH : ℚ := 400

/-- Virtual resolution height (`VIRTUAL_HEIGHT = 600`). -/
def VIRTUAL_HEIGHT : ℚ := 600

/-- Fixed horizontal bird position (`BIRD_X = 50`). -/
def BIRD_X : ℚ := 50

/-- Bird sprite width (`BIRD_WIDTH = 28`). -/
def BIRD_WIDTH : ℚ := 28

/-- Bird sprite height (`BIRD_HEIGHT = 21`). -/
def BIRD_HEIGHT : ℚ := 21

/-- Per-frame gravity acceleration (`GRAVITY = 0.3`). -/
def GRAVITY : ℚ := 0.3

/-- Flap impulse (`FLAP_STRENGTH = -7.5`). -/
def FLAP_STRENGTH : ℚ := -7.5

/-- Pipe width (`PIPE_WIDTH = 48`). -/
def PIPE_WIDTH : ℚ := 48

/-- Vertical gap between the pipe segments (`PIPE_GAP = 200`). -/
def PIPE_GAP : ℚ := 200

/-- Horizontal pipe speed (`PIPE_SPEED = 1.8`). -/
def PIPE_SPEED : ℚ := 1.8

/-- Frames between pipe spawns (`PIPE_INTERVAL = 160`). -/
def PIPE_INTERVAL : ℕ := 160

/-- The bird: position, size and vertical velocity. -/
structure Bird where
  x : ℚ
  y : ℚ
  width : ℚ
  height : ℚ
  velocity : ℚ
  deriving DecidableEq, Repr

/-- A pipe pair: x position, top segment height, bottom segment start,
and the scored-once flag. -/
structure Pipe where
  x : ℚ
  topHeight : ℚ
  bottomY : ℚ
  passed : Bool
  deriving DecidableEq, Repr

/-- A feather particle. -/
structure Particle where
  x : ℚ
  y : ℚ
  size : ℚ
  speedX : ℚ
  speedY : ℚ
  life : ℤ
  color : String
  deriving DecidableEq, Repr

/-- A background cloud. -/
structure Cloud where
  x : ℚ
  y : ℚ
  size : ℚ
  speed : ℚ
  deriving DecidableEq, Repr

/-- The shared mutable world state of the game script. -/
structure World where
  bird : Bird
  pipes : List Pipe
  particles : List Particle
  clouds : List Cloud
  score : ℕ
  gameRunning : Bool
  gameOver : Bool
  frameCount : ℕ
  spawnTimer : ℕ
  deriving DecidableEq, Repr

/-- An axis-aligned rectangle, as built inline in `checkCollisions`. -/
structure Rect where
  x : ℚ
  y : ℚ
  width : ℚ
  height : ℚ
  deriving DecidableEq, Repr

/-- `isColliding(rect1, rect2)`: strict overlap of both axis projections. -/
def isColliding (rect1 rect2 : Rect) : Bool :=
  decide (rect1.x < rect2.x + rect2.width) &&
  decide (rect1.x + rect1.width > rect2.x) &&
  decide (rect1.y < rect2.y + rect2.height) &&
  decide (rect1.y + rect1.height > rect2.y)

/-- `endGame()`'s effect on the world state: stop the run, mark game over
(audio, modal and score display are external collaborators). -/
def endGame (w : World) : World :=
  { w with gameRunning := false, gameOver := true }

/-- `updateBird()`: integrate gravity, then the floor check (clamp, zero
velocity, `endGame()`), then the ceiling check (clamp, zero velocity).
Returns the updated bird together with the number of `endGame()` calls
performed (the world-level flag flip is applied by the caller). -/
def updateBird (b : Bird) : Bird × ℕ :=
  let b1 : Bird := { b with velocity := b.velocity + GRAVITY,
                            y := b.y + (b.velocity + GRAVITY) }
  let fl : Bird × ℕ :=
    if b1.y + b1.height > VIRTUAL_HEIGHT then
      ({ b1 with y := VIRTUAL_HEIGHT - b1.height, velocity := 0 }, 1)
    else (b1, 0)
  let b3 : Bird :=
    if fl.1.y < 0 then { fl.1 with y := 0, velocity := 0 } else fl.1
  (b3, fl.2)

/-- `generatePipe(xOverride)`: random top height in
`[minHeight, maxHeight]` via `Math.floor(r * (max - min + 1)) + min`,
spawning at the right edge unless an explicit x is given.
`r` is the `Math.random()` draw, assumed in `[0, 1)`. -/
def generatePipe (r : ℚ) (xOverride : Option ℚ) : Pipe :=
  let minHeight : ℚ := 80
  let maxHeight : ℚ := VIRTUAL_HEIGHT - PIPE_GAP - minHeight
  let topPipeHeight : ℚ := ((⌊r * (maxHeight - minHeight + 1)⌋ : ℤ) : ℚ) + minHeight
  let startX : ℚ := xOverride.getD VIRTUAL_WIDTH
  { x := startX, topHeight := topPipeHeight,
    bottomY := topPipeHeight + PIPE_GAP, passed := false }

/-- One iteration of the `updatePipes` loop body for a single pipe:
move left, score if newly past the bird (`passed` checked before and set
together with the increment), drop if fully off the left edge.  Returns
the kept pipe (if any) and the score increment (0 or 1). -/
def stepPipe (birdX : ℚ) (p : Pipe) : Option Pipe × ℕ :=
  let x1 : ℚ := p.x - PIPE_SPEED
  let scored : Bool := !p.passed && decide (x1 + PIPE_WIDTH < birdX)
  let p1 : Pipe := { p with x := x1, passed := p.passed || scored }
  let inc : ℕ := if scored then 1 else 0
  if x1 + PIPE_WIDTH < 0 then (none, inc) else (some p1, inc)

/-- The `updatePipes` per-pipe loop over the whole list (the source
iterates from the last index down, removing only the current element, so
kept pipes stay in order and the score increments accumulate). -/
def updatePipesList (birdX : ℚ) (ps : List Pipe) : List Pipe × ℕ :=
  ps.foldr
    (fun p acc =>
      match stepPipe birdX p with
      | (none, i) => (acc.1, acc.2 + i)
      | (some q, i) => (q :: acc.1, acc.2 + i))
    ([], 0)

/-- `updatePipes()`: advance the spawn timer, spawn a pipe at the right
edge when the interval is reached, then run the per-pipe loop.
`r` is the `Math.random()` draw used if a pipe spawns. -/
def updatePipes (r : ℚ) (w : World) : World :=
  let timer1 : ℕ := w.spawnTimer + 1
  let spawned : ℕ × List Pipe :=
    if timer1 ≥ PIPE_INTERVAL then (0, w.pipes ++ [generatePipe r none])
    else (timer1, w.pipes)
  let res := updatePipesList w.bird.x spawned.2
  { w with spawnTimer := spawned.1, pipes := res.1, score := w.score + res.2 }

/-- One iteration of the `updateParticles` loop body: drift, age, drop
when life reaches zero. -/
def stepParticle (p : Particle) : Option Particle :=
  let p1 : Particle := { p with x := p.x + p.speedX, y := p.y + p.speedY,
                                life := p.life - 1 }
  if p1.life ≤ 0 then none else some p1

/-- `updateParticles()` over the whole particle list. -/
def updateParticles (ps : List Particle) : List Particle :=
  ps.filterMap stepParticle

/-- `createFeathers(amount)`: append `amount` particles at the bird's
position; `rnd` supplies the `Math.random()` draws (three per particle:
size, x speed, y speed). -/
def createFeathers (b : Bird) (rnd : ℕ → ℚ) (amount : ℕ)
    (particles : List Particle) : List Particle :=
  particles ++ (List.range amount).map (fun i =>
    { x := b.x, y := b.y + b.height / 2,
      size := rnd (3 * i) * 3 + 2,
      speedX := rnd (3 * i + 1) * (-2) - 1,
      speedY := (rnd (3 * i + 2) - 0.5) * 2,
      life := 30, color := "white" })

/-- `flap()`: while running, set the bird's velocity to the flap impulse
and emit a burst of 3 feathers; otherwise do nothing. -/
def flap (rnd : ℕ → ℚ) (w : World) : World :=
  if w.gameRunning then
    { w with bird := { w.bird with velocity := FLAP_STRENGTH },
             particles := createFeathers { w.bird with velocity := FLAP_STRENGTH }
               rnd 3 w.particles }
  else w

/-- Random draws consumed by `generateCloud` (x, y, size, speed). -/
structure CloudRand where
  rx : ℚ
  ry : ℚ
  rsize : ℚ
  rspeed : ℚ
  deriving DecidableEq, Repr

/-- `generateCloud(randomX)`: a new cloud at a random position in the top
half, either at a random x or just past the right edge. -/
def generateCloud (cr : CloudRand) (randomX : Bool) : Cloud :=
  { x := if randomX then cr.rx * VIRTUAL_WIDTH else VIRTUAL_WIDTH + cr.rx * 100,
    y := cr.ry * (VIRTUAL_HEIGHT / 2),
    size := cr.rsize * 25 + 20,
    speed := cr.rspeed * 0.4 + 0.1 }

/-- `updateClouds()`: drift clouds left, prune off-screen ones, and with
probability 0.005 (while running) spawn a replacement.  `roll` is the
spawn-probability draw and `cr` the draws for the spawned cloud. -/
def updateClouds (roll : ℚ) (cr : CloudRand) (running : Bool)
    (cs : List Cloud) : List Cloud :=
  let cs1 : List Cloud := cs.filterMap (fun c =>
    let c1 : Cloud := { c with x := c.x - c.speed }
    if c1.x + c1.size * 3 < 0 then none else some c1)
  if running && decide (roll < 0.005) then cs1 ++ [generateCloud cr false]
  else cs1

/-- Bird rectangle as built in `checkCollisions`. -/
def birdRect (b : Bird) : Rect :=
  { x := b.x, y := b.y, width := b.width, height := b.height }

/-- Top pipe segment rectangle as built in `checkCollisions`. -/
def topPipeRect (p : Pipe) : Rect :=
  { x := p.x, y := 0, width := PIPE_WIDTH, height := p.topHeight }

/-- Bottom pipe segment rectangle as built in `checkCollisions`. -/
def bottomPipeRect (p : Pipe) : Rect :=
  { x := p.x, y := p.bottomY, width := PIPE_WIDTH,
    height := VIRTUAL_HEIGHT - p.bottomY }

/-- `checkCollisions()`: call `endGame()` on the first pipe whose top or
bottom segment strictly overlaps the bird (the loop returns immediately,
so `endGame()` runs at most once here).  Also reports whether it fired. -/
def checkCollisions (w : World) : World × ℕ :=
  if w.pipes.any (fun pipe =>
      isColliding (birdRect w.bird) (topPipeRect pipe) ||
      isColliding (birdRect w.bird) (bottomPipeRect pipe))
  then (endGame w, 1) else (w, 0)

/-- Random draws consumed by one frame of `gameLoop`. -/
structure FrameRand where
  cloudRoll : ℚ
  cloudR : CloudRand
  pipeR : ℚ
  deriving DecidableEq, Repr

/-- One `gameLoop()` frame on the world state: early-return when not
running, else clouds, bird (possibly ending the game), pipes, particles,
drawing (no state effect), then collision check.  Returns the new world
and the number of `endGame()` calls made during the frame. -/
def gameLoop (fr : FrameRand) (w : World) : World × ℕ :=
  if !w.gameRunning then (w, 0)
  else
    let w1 : World :=
      { w with clouds := updateClouds fr.cloudRoll fr.cloudR w.gameRunning w.clouds }
    let ub := updateBird w1.bird
    let w2 : World := { w1 with bird := ub.1 }
    let w2' : World := if ub.2 = 1 then endGame w2 else w2
    let w3 : World := updatePipes fr.pipeR w2'
    let w4 : World := { w3 with particles := updateParticles w3.particles }
    let cc := checkCollisions w4
    (cc.1, ub.2 + cc.2)

/-- Scheduling state for the `requestAnimationFrame` lifecycle: whether the
game is running, whether the game-over modal is up, and how many frame
callbacks are pending in the browser's queue.  Modelled from the source's
control flow: `gameLoop` early-returns (consuming its callback without
rescheduling) when not running; a working frame always executes
`animationFrameId = requestAnimationFrame(gameLoop)` as its last statement,
even when `endGame()` fired during the frame; `endGame()`'s
`cancelAnimationFrame(animationFrameId)` is a no-op there because
`endGame()` is only reached from inside a running frame, at which point
`animationFrameId` identifies the already-fired callback currently
executing, not a pending one. -/
structure Sched where
  running : Bool
  over : Bool
  pending : ℕ
  deriving DecidableEq, Repr

/-- External events driving the scheduler: a pending frame callback fires
(`death` abstracts whether `endGame()` is called during that frame's work),
or the restart button — clickable only while the game-over modal is shown —
invokes `startGame()`, which resets state and calls `gameLoop()`
synchronously (that first frame of a fresh session cannot die, and ends by
scheduling a callback). -/
inductive SchedEvent where
  | fire (death : Bool)
  | restartClick
  deriving DecidableEq, Repr

/-- One scheduler transition; `none` means the event cannot occur in this
state (no callback pending, a death in a non-working frame, or a restart
click without the modal). -/
def schedStep (s : Sched) : SchedEvent → Option Sched
  | SchedEvent.fire death =>
    if s.pending = 0 then none
    else if s.running then
      if death then some { running := false, over := true, pending := s.pending }
      else some s
    else if death then none
    else some { s with pending := s.pending - 1 }
  | SchedEvent.restartClick =>
    if s.over then some { running := true, over := false, pending := s.pending + 1 }
    else none

/-- Run a sequence of scheduler events. -/
def schedRun (s : Sched) : List SchedEvent → Option Sched
  | [] => some s
  | e :: es =>
    match schedStep s e with
    | none => none
    | some s1 => schedRun s1 es

/-- Scheduler state right after `window.onload` runs `startGame()`: running,
no modal, one callback pending (scheduled by the synchronous first frame). -/
def schedInit : Sched := { running := true, over := false, pending := 1 }

/-- C2: `isColliding` returns true iff both axis projections overlap
strictly; hence edge-touching rectangles report no collision, rectangles
separated on an axis report no collision, and a positively-sized rectangle
contained in another reports collision. -/
theorem isColliding_spec (rect1 rect2 : Rect) :
    (isColliding rect1 rect2 = true ↔
      (rect1.x < rect2.x + rect2.width ∧ rect1.x + rect1.width > rect2.x ∧
       rect1.y < rect2.y + rect2.height ∧ rect1.y + rect1.height > rect2.y)) ∧
    (rect1.x + rect1.width = rect2.x ∨ rect2.x + rect2.width = rect1.x ∨
      rect1.y + rect1.height = rect2.y ∨ rect2.y + rect2.height = rect1.y →
      isColliding rect1 rect2 = false) ∧
    (rect1.x + rect1.width < rect2.x ∨ rect2.x + rect2.width < rect1.x ∨
      rect1.y + rect1.height < rect2.y ∨ rect2.y + rect2.height < rect1.y →
      isColliding rect1 rect2 = false) ∧
    (0 < rect1.width → 0 < rect1.height →
      rect2.x ≤ rect1.x → rect1.x + rect1.width ≤ rect2.x + rect2.width →
      rect2.y ≤ rect1.y → rect1.y + rect1.height ≤ rect2.y + rect2.height →
      isColliding rect1 rect2 = true) := by
  have hiff : isColliding rect1 rect2 = true ↔
      (rect1.x < rect2.x + rect2.width ∧ rect1.x + rect1.width > rect2.x ∧
       rect1.y < rect2.y + rect2.height ∧ rect1.y + rect1.height > rect2.y) := by
    simp [isColliding, and_assoc]
  refine ⟨hiff, ?_, ?_, ?_⟩
  · intro h
    refine Bool.eq_false_iff.mpr fun ht => ?_
    obtain ⟨a, b, c, d⟩ := hiff.mp ht
    rcases h with h | h | h | h <;> linarith
  · intro h
    refine Bool.eq_false_iff.mpr fun ht => ?_
    obtain ⟨a, b, c, d⟩ := hiff.mp ht
    rcases h with h | h | h | h <;> linarith
  · intro hw hh hx1 hx2 hy1 hy2
    exact hiff.mpr ⟨by linarith, by linarith, by linarith, by linarith⟩

/-- Witness for C2 at concrete rectangles: a 10×10 square touching a 5×5
square exactly at its right edge does not collide, and a 3×3 square fully
inside the 10×10 square does. -/
theorem isColliding_spec_witness :
    isColliding ⟨0, 0, 10, 10⟩ ⟨10, 0, 5, 5⟩ = false ∧
    isColliding ⟨2, 2, 3, 3⟩ ⟨0, 0, 10, 10⟩ = true :=
  ⟨(isColliding_spec ⟨0, 0, 10, 10⟩ ⟨10, 0, 5, 5⟩).2.1 (Or.inl (by norm_num)),
   (isColliding_spec ⟨2, 2, 3, 3⟩ ⟨0, 0, 10, 10⟩).2.2.2 (by norm_num) (by norm_num)
     (by norm_num) (by norm_num) (by norm_num) (by norm_num)⟩

/-- Helper: closed form of `updateBird` when the floor clamp fires and the
clamped position is not below the ceiling. -/
lemma updateBird_eq_floor (b : Bird)
    (h1 : b.y + (b.velocity + GRAVITY) + b.height > VIRTUAL_HEIGHT)
    (h2 : ¬ VIRTUAL_HEIGHT - b.height < 0) :
    updateBird b = ({ b with y := VIRTUAL_HEIGHT - b.height, velocity := 0 }, 1) := by
  simp only [updateBird]
  rw [if_pos h1]
  dsimp only
  rw [if_neg h2]

/-- Helper: closed form of `updateBird` when the floor clamp does not fire
but the ceiling clamp does. -/
lemma updateBird_eq_ceiling (b : Bird)
    (h1 : ¬ b.y + (b.velocity + GRAVITY) + b.height > VIRTUAL_HEIGHT)
    (h2 : b.y + (b.velocity + GRAVITY) < 0) :
    updateBird b = ({ b with y := 0, velocity := 0 }, 0) := by
  simp only [updateBird]
  rw [if_neg h1]
  dsimp only
  rw [if_pos h2]

/-- Helper: closed form of `updateBird` when neither clamp fires. -/
lemma updateBird_eq_mid (b : Bird)
    (h1 : ¬ b.y + (b.velocity + GRAVITY) + b.height > VIRTUAL_HEIGHT)
    (h2 : ¬ b.y + (b.velocity + GRAVITY) < 0) :
    updateBird b =
      ({ b with y := b.y + (b.velocity + GRAVITY),
                velocity := b.velocity + GRAVITY }, 0) := by
  simp only [updateBird]
  rw [if_neg h1]
  dsimp only
  rw [if_neg h2]

/-- Helper: after `updateBird`'s two clamps, the bird's y is in
`[0, VIRTUAL_HEIGHT - BIRD_HEIGHT]`. -/
lemma updateBird_y_range (b : Bird) (hh : b.height = BIRD_HEIGHT) :
    0 ≤ (updateBird b).1.y ∧ (updateBird b).1.y ≤ VIRTUAL_HEIGHT - BIRD_HEIGHT := by
  have hbh : VIRTUAL_HEIGHT - b.height = VIRTUAL_HEIGHT - BIRD_HEIGHT := by rw [hh]
  by_cases h1 : b.y + (b.velocity + GRAVITY) + b.height > VIRTUAL_HEIGHT
  · rw [updateBird_eq_floor b h1
      (by rw [hbh]; norm_num [VIRTUAL_HEIGHT, BIRD_HEIGHT])]
    dsimp only
    rw [hbh]
    norm_num [VIRTUAL_HEIGHT, BIRD_HEIGHT]
  · by_cases h2 : b.y + (b.velocity + GRAVITY) < 0
    · rw [updateBird_eq_ceiling b h1 h2]
      dsimp only
      norm_num [VIRTUAL_HEIGHT, BIRD_HEIGHT]
    · rw [updateBird_eq_mid b h1 h2]
      dsimp only
      rw [hh] at h1
      norm_num [VIRTUAL_HEIGHT, BIRD_HEIGHT] at h1 h2 ⊢
      constructor <;> linarith

/-- Helper: in a running frame, the bird coming out of `gameLoop` is exactly
the bird produced by `updateBird`; the pipe update, the particle update, the
drawing stages and the collision check touch other parts of the state. -/
lemma gameLoop_bird_eq (fr : FrameRand) (w : World) (hr : w.gameRunning = true) :
    (gameLoop fr w).1.bird = (updateBird w.bird).1 := by
  simp only [gameLoop, hr, Bool.not_true, Bool.false_eq_true, if_false,
    updatePipes, checkCollisions, endGame]
  split_ifs <;> rfl

/-- C3: in `updateBird`, when the post-integration bird bottom exceeds the
floor, the position is clamped to the floor, the velocity zeroed, and
`endGame()` is called exactly once; when the post-integration top is above
the ceiling, the position is clamped to 0 and the velocity zeroed with no
`endGame()` call. -/
theorem updateBird_clamp_spec (b : Bird) (hh : b.height = BIRD_HEIGHT) :
    (b.y + (b.velocity + GRAVITY) + b.height > VIRTUAL_HEIGHT →
      updateBird b = ({ b with y := VIRTUAL_HEIGHT - b.height, velocity := 0 }, 1)) ∧
    (b.y + (b.velocity + GRAVITY) < 0 →
      updateBird b = ({ b with y := 0, velocity := 0 }, 0)) := by
  constructor
  · intro hfl
    exact updateBird_eq_floor b hfl
      (by rw [hh]; norm_num [VIRTUAL_HEIGHT, BIRD_HEIGHT])
  · intro hcl
    refine updateBird_eq_ceiling b (fun hfl => ?_) hcl
    rw [hh] at hfl
    norm_num [VIRTUAL_HEIGHT, BIRD_HEIGHT] at hfl
    linarith

/-- Witness for C3: a bird just above the floor falling fast is clamped to
y = 579 with zero velocity and one `endGame()` call; a bird just below the
ceiling moving up fast is clamped to y = 0 with zero velocity and none. -/
theorem updateBird_clamp_spec_witness :
    updateBird ⟨50, 595, 28, 21, 10⟩ = (⟨50, 579, 28, 21, 0⟩, 1) ∧
    updateBird ⟨50, 5, 28, 21, -10⟩ = (⟨50, 0, 28, 21, 0⟩, 0) := by
  constructor
  · have h := (updateBird_clamp_spec ⟨50, 595, 28, 21, 10⟩ rfl).1
      (by norm_num [GRAVITY, VIRTUAL_HEIGHT])
    rw [h]
    norm_num [VIRTUAL_HEIGHT]
  · have h := (updateBird_clamp_spec ⟨50, 5, 28, 21, -10⟩ rfl).2
      (by norm_num [GRAVITY])
    rw [h]

/-- Counterexample for C6: a bird at y = 0 with the upward velocity −0.2 is
not clamped — gravity already overcomes the impulse, so after one update it
sits at y = 0.1 with velocity 0.1, neither of which is zero (no game end is
triggered, as claimed). -/
theorem ceiling_scenario_counterexample :
    (Bird.mk 50 0 28 21 (-0.2)).y = 0 ∧
    (Bird.mk 50 0 28 21 (-0.2)).velocity < 0 ∧
    (updateBird (Bird.mk 50 0 28 21 (-0.2))).1.y ≠ 0 ∧
    (updateBird (Bird.mk 50 0 28 21 (-0.2))).1.velocity ≠ 0 := by
  rw [updateBird_eq_mid (Bird.mk 50 0 28 21 (-0.2))
    (by norm_num [GRAVITY, VIRTUAL_HEIGHT]) (by norm_num [GRAVITY])]
  norm_num [GRAVITY]

/-- C6 amended: for a bird at y = 0 whose upward velocity is at least as
strong as gravity (velocity ≤ −GRAVITY), one `updateBird` yields y = 0,
velocity 0, and no game end.  (For −GRAVITY < velocity < 0 the bird simply
starts falling: no clamp fires and the velocity is not reset.) -/
theorem updateBird_ceiling_amended (b : Bird) (hy : b.y = 0)
    (hv : b.velocity ≤ -GRAVITY) (hh : b.height = BIRD_HEIGHT) :
    updateBird b = ({ b with y := 0, velocity := 0 }, 0) := by
  have hsum : b.y + (b.velocity + GRAVITY) ≤ 0 := by rw [hy]; linarith
  have h1 : ¬ b.y + (b.velocity + GRAVITY) + b.height > VIRTUAL_HEIGHT := by
    rw [hh]
    norm_num [VIRTUAL_HEIGHT, BIRD_HEIGHT]
    linarith
  rcases lt_or_eq_of_le hsum with hlt | heq
  · exact updateBird_eq_ceiling b h1 hlt
  · rw [updateBird_eq_mid b h1 (by rw [heq]; exact lt_irrefl 0)]
    rw [heq]
    have hveq : b.velocity + GRAVITY = 0 := by rw [hy] at heq; linarith
    rw [hveq]

/-- Witness for C6 amended: a bird at the ceiling with velocity −1 stays
clamped at y = 0 with velocity reset to 0 and no game end. -/
theorem updateBird_ceiling_amended_witness :
    updateBird ⟨50, 0, 28, 21, -1⟩ = (⟨50, 0, 28, 21, 0⟩, 0) :=
  updateBird_ceiling_amended ⟨50, 0, 28, 21, -1⟩ rfl
    (by norm_num [GRAVITY]) rfl

/-- Sample running world used by concrete witnesses: bird at the start
position, no pipes, particles or clouds, score 0. -/
def sampleWorld : World :=
  { bird := { x := BIRD_X, y := VIRTUAL_HEIGHT / 2 - BIRD_HEIGHT / 2,
              width := BIRD_WIDTH, height := BIRD_HEIGHT, velocity := 0 },
    pipes := [], particles := [], clouds := [], score := 0,
    gameRunning := true, gameOver := false, frameCount := 0, spawnTimer := 0 }

/-- Sample per-frame random draws used by concrete witnesses (cloud roll 1
never spawns a cloud; the other draws are 1/2). -/
def sampleFrame : FrameRand :=
  { cloudRoll := 1, cloudR := ⟨1/2, 1/2, 1/2, 1/2⟩, pipeR := 1/2 }

/-- Sample random source for `flap` witnesses. -/
def sampleRnd : ℕ → ℚ := fun _ => 1/2

/-- C4: in every frame executed while the game is running, the bird that
comes out of the frame is exactly the bird produced by `updateBird`'s
clamping, and its y lies in `[0, VIRTUAL_HEIGHT − BIRD_HEIGHT]`; `flap`
never moves the bird's y, and the pipe update never touches the bird. -/
theorem bird_y_invariant (fr : FrameRand) (rnd : ℕ → ℚ) (r : ℚ) (w : World)
    (hr : w.gameRunning = true) (hh : w.bird.height = BIRD_HEIGHT) :
    (gameLoop fr w).1.bird = (updateBird w.bird).1 ∧
    0 ≤ (gameLoop fr w).1.bird.y ∧
    (gameLoop fr w).1.bird.y ≤ VIRTUAL_HEIGHT - BIRD_HEIGHT ∧
    (flap rnd w).bird.y = w.bird.y ∧
    (updatePipes r w).bird = w.bird := by
  have hb := gameLoop_bird_eq fr w hr
  have hrange := updateBird_y_range w.bird hh
  refine ⟨hb, ?_, ?_, ?_, ?_⟩
  · rw [hb]; exact hrange.1
  · rw [hb]; exact hrange.2
  · simp only [flap]
    split_ifs
    all_goals rfl
  · simp only [updatePipes]

/-- Witness for C4 at the sample world: the frame keeps the bird's y inside
`[0, 579]` and `flap` leaves its y unchanged. -/
theorem bird_y_invariant_witness :
    0 ≤ (gameLoop sampleFrame sampleWorld).1.bird.y ∧
    (gameLoop sampleFrame sampleWorld).1.bird.y ≤ VIRTUAL_HEIGHT - BIRD_HEIGHT ∧
    (flap sampleRnd sampleWorld).bird.y = sampleWorld.bird.y :=
  ⟨(bird_y_invariant sampleFrame sampleRnd (1/2) sampleWorld rfl rfl).2.1,
   (bird_y_invariant sampleFrame sampleRnd (1/2) sampleWorld rfl rfl).2.2.1,
   (bird_y_invariant sampleFrame sampleRnd (1/2) sampleWorld rfl rfl).2.2.2.1⟩

/-- Helper: the spawned top height is `⌊r · 241⌋ + 80` (241 = max − min + 1
with min = 80 and max = 600 − 200 − 80 = 320). -/
lemma generatePipe_topHeight (r : ℚ) (xo : Option ℚ) :
    (generatePipe r xo).topHeight = ((⌊r * 241⌋ : ℤ) : ℚ) + 80 := by
  simp only [generatePipe]
  norm_num [VIRTUAL_HEIGHT, PIPE_GAP]

/-- C5: for every `Math.random()` draw `r ∈ [0,1)`, the spawned pipe's top
height is an integer in `[80, 320]`, so top height + gap + bottom margin
fits the viewport and both obstacle segments are at least 80 tall; and each
value `k` in that range is produced exactly for `r` in the half-open
interval `[(k−80)/241, (k−79)/241)` — 241 preimage intervals of equal
length 1/241, i.e. the uniform draw induces the uniform distribution on
`[80, 320]`. -/
theorem generatePipe_gap_spec (r : ℚ) (h0 : 0 ≤ r) (h1 : r < 1) :
    (∃ k : ℤ, (generatePipe r none).topHeight = (k : ℚ)) ∧
    80 ≤ (generatePipe r none).topHeight ∧
    (generatePipe r none).topHeight ≤ VIRTUAL_HEIGHT - PIPE_GAP - 80 ∧
    (generatePipe r none).topHeight + PIPE_GAP + 80 ≤ VIRTUAL_HEIGHT ∧
    (generatePipe r none).bottomY = (generatePipe r none).topHeight + PIPE_GAP ∧
    80 ≤ VIRTUAL_HEIGHT - (generatePipe r none).bottomY ∧
    (∀ k : ℤ, 80 ≤ k → k ≤ 320 →
      ((generatePipe r none).topHeight = (k : ℚ) ↔
        ((k : ℚ) - 80) / 241 ≤ r ∧ r < ((k : ℚ) - 79) / 241)) := by
  have hth := generatePipe_topHeight r none
  have hbot : (generatePipe r none).bottomY =
      (generatePipe r none).topHeight + PIPE_GAP := rfl
  have hfl0 : (0 : ℤ) ≤ ⌊r * 241⌋ := Int.floor_nonneg.mpr (by positivity)
  have hfl1 : ⌊r * 241⌋ ≤ 240 := by
    have hx : (r * 241 : ℚ) < ((241 : ℤ) : ℚ) := by push_cast; nlinarith
    have := Int.floor_lt.mpr hx
    omega
  have hfl0q : (0 : ℚ) ≤ ((⌊r * 241⌋ : ℤ) : ℚ) := by exact_mod_cast hfl0
  have hfl1q : ((⌊r * 241⌋ : ℤ) : ℚ) ≤ 240 := by exact_mod_cast hfl1
  refine ⟨⟨⌊r * 241⌋ + 80, by rw [hth]; push_cast; ring⟩, ?_, ?_, ?_, hbot, ?_, ?_⟩
  · rw [hth]; linarith
  · rw [hth]; norm_num [VIRTUAL_HEIGHT, PIPE_GAP]; linarith
  · rw [hth]; norm_num [VIRTUAL_HEIGHT, PIPE_GAP]; linarith
  · rw [hbot, hth]; norm_num [VIRTUAL_HEIGHT, PIPE_GAP]; linarith
  · intro k hk0 hk1
    rw [hth]
    constructor
    · intro he
      have hz : ⌊r * 241⌋ = k - 80 := by
        have : ((⌊r * 241⌋ : ℤ) : ℚ) = (k : ℚ) - 80 := by linarith
        exact_mod_cast this
      obtain ⟨hl, hr'⟩ := Int.floor_eq_iff.mp hz
      push_cast at hl hr'
      constructor
      · rw [div_le_iff (by norm_num : (0 : ℚ) < 241)]; linarith
      · rw [lt_div_iff (by norm_num : (0 : ℚ) < 241)]; linarith
    · rintro ⟨hl, hr'⟩
      rw [div_le_iff (by norm_num : (0 : ℚ) < 241)] at hl
      rw [lt_div_iff (by norm_num : (0 : ℚ) < 241)] at hr'
      have hz : ⌊r * 241⌋ = k - 80 :=
        Int.floor_eq_iff.mpr ⟨by push_cast; linarith, by push_cast; linarith⟩
      rw [hz]; push_cast; ring

/-- Witness for C5 at r = 1/2: the spawned top height is 200 (the midpoint
value), and the segments fit the viewport. -/
theorem generatePipe_gap_spec_witness :
    (generatePipe (1/2) none).topHeight = ((200 : ℤ) : ℚ) ∧
    (generatePipe (1/2) none).topHeight + PIPE_GAP + 80 ≤ VIRTUAL_HEIGHT := by
  have h := generatePipe_gap_spec (1/2) (by norm_num) (by norm_num)
  exact ⟨(h.2.2.2.2.2.2 200 (by norm_num) (by norm_num)).mpr
      ⟨by norm_num, by norm_num⟩,
    h.2.2.2.1⟩

/-- The sample world after the game has stopped. -/
def sampleStopped : World :=
  { sampleWorld with gameRunning := false, gameOver := true }

/-- C9: while running, `flap` replaces the bird's velocity with the flap
impulse (whatever the current velocity), moves nothing else on the bird,
appends exactly 3 particles while keeping the existing ones, and leaves
pipes, clouds, score and flags alone; while not running, `flap` is the
identity on the whole world (a no-op, not an error — the embedding is a
total function). -/
theorem flap_effect_spec (rnd : ℕ → ℚ) (w : World) :
    (w.gameRunning = true →
      (flap rnd w).bird.velocity = FLAP_STRENGTH ∧
      (flap rnd w).bird.x = w.bird.x ∧
      (flap rnd w).bird.y = w.bird.y ∧
      (flap rnd w).bird.width = w.bird.width ∧
      (flap rnd w).bird.height = w.bird.height ∧
      (flap rnd w).particles.length = w.particles.length + 3 ∧
      (flap rnd w).particles.take w.particles.length = w.particles ∧
      (flap rnd w).pipes = w.pipes ∧
      (flap rnd w).clouds = w.clouds ∧
      (flap rnd w).score = w.score ∧
      (flap rnd w).gameRunning = w.gameRunning ∧
      (flap rnd w).gameOver = w.gameOver) ∧
    (w.gameRunning = false → flap rnd w = w) := by
  constructor
  · intro hr
    refine ⟨?_, ?_, ?_, ?_, ?_, ?_, ?_, ?_, ?_, ?_, ?_, ?_⟩ <;>
      simp [flap, hr, createFeathers, List.take_left]
  · intro hnr
    simp [flap, hnr]

/-- Witness for C9: flapping the running sample world sets velocity −7.5
and grows the particle list from 0 to 3; flapping the stopped sample world
changes nothing. -/
theorem flap_effect_spec_witness :
    (flap sampleRnd sampleWorld).bird.velocity = FLAP_STRENGTH ∧
    (flap sampleRnd sampleWorld).particles.length =
      sampleWorld.particles.length + 3 ∧
    flap sampleRnd sampleStopped = sampleStopped :=
  ⟨((flap_effect_spec sampleRnd sampleWorld).1 rfl).1,
   ((flap_effect_spec sampleRnd sampleWorld).1 rfl).2.2.2.2.2.1,
   (flap_effect_spec sampleRnd sampleStopped).2 rfl⟩

/-- Helper: the per-pipe loop keeps exactly the pipes `stepPipe` keeps (in
order) and adds up exactly the per-pipe score increments. -/
lemma updatePipesList_eq (bx : ℚ) (ps : List Pipe) :
    updatePipesList bx ps =
      (ps.filterMap (fun p => (stepPipe bx p).1),
       (ps.map (fun p => (stepPipe bx p).2)).sum) := by
  induction ps with
  | nil => rfl
  | cons p ps ih =>
    simp only [updatePipesList, List.foldr_cons] at ih ⊢
    rw [ih]
    cases hs : stepPipe bx p with
    | mk o i =>
      cases o with
      | none => simp [List.filterMap_cons, hs, Nat.add_comm]
      | some q => simp [List.filterMap_cons, hs, Nat.add_comm]

/-- Helper: the pipe list `updatePipes` iterates over — the old pipes plus
the newly spawned one when the spawn timer reaches the interval. -/
def spawnAdjusted (r : ℚ) (w : World) : List Pipe :=
  if w.spawnTimer + 1 ≥ PIPE_INTERVAL then w.pipes ++ [generatePipe r none]
  else w.pipes

/-- Helper: the kept-pipe component of `stepPipe` in closed form. -/
lemma stepPipe_fst (bx : ℚ) (p : Pipe) :
    (stepPipe bx p).1 =
      if p.x - PIPE_SPEED + PIPE_WIDTH < 0 then none
      else some { p with
        x := p.x - PIPE_SPEED,
        passed := p.passed ||
          (!p.passed && decide (p.x - PIPE_SPEED + PIPE_WIDTH < bx)) } := by
  simp only [stepPipe]
  split_ifs <;> rfl

/-- Helper: the score-increment component of `stepPipe` in closed form. -/
lemma stepPipe_snd (bx : ℚ) (p : Pipe) :
    (stepPipe bx p).2 =
      if (!p.passed && decide (p.x - PIPE_SPEED + PIPE_WIDTH < bx)) then 1
      else 0 := by
  simp only [stepPipe]
  split_ifs <;> rfl

/-- Helper: `updatePipes` in terms of `spawnAdjusted`, `stepPipe` and the
score sum. -/
lemma updatePipes_eq (r : ℚ) (w : World) :
    (updatePipes r w).pipes =
      (spawnAdjusted r w).filterMap (fun p => (stepPipe w.bird.x p).1) ∧
    (updatePipes r w).score = w.score +
      ((spawnAdjusted r w).map (fun p => (stepPipe w.bird.x p).2)).sum ∧
    (updatePipes r w).bird = w.bird := by
  by_cases hs : w.spawnTimer + 1 ≥ PIPE_INTERVAL
  · simp only [updatePipes, spawnAdjusted, if_pos hs, updatePipesList_eq]
    refine ⟨?_, ?_, ?_⟩ <;> first | rfl | trivial
  · simp only [updatePipes, spawnAdjusted, if_neg hs, updatePipesList_eq]
    refine ⟨?_, ?_, ?_⟩ <;> first | rfl | trivial

/-- C1: per pipe and per frame, the score increment is 1 exactly when the
pipe is not yet marked passed and its right edge has just moved strictly
left of the bird's x (and 0 otherwise, in particular for already-passed
pipes, so no pipe is counted twice); the surviving pipe's `passed` flag is
set exactly when it was set before or the pipe scored now; and across the
frame the score becomes the old score plus the sum of the per-pipe
increments, hence never decreases. -/
theorem score_once_per_pipe_spec (r : ℚ) (w : World) (bx : ℚ) (p : Pipe) :
    ((stepPipe bx p).2 = 1 ↔
      (p.passed = false ∧ p.x - PIPE_SPEED + PIPE_WIDTH < bx)) ∧
    ((stepPipe bx p).2 ≤ 1) ∧
    (p.passed = true → (stepPipe bx p).2 = 0) ∧
    (∀ q, (stepPipe bx p).1 = some q →
      (q.passed = true ↔
        (p.passed = true ∨ p.x - PIPE_SPEED + PIPE_WIDTH < bx))) ∧
    ((updatePipes r w).score = w.score +
      ((spawnAdjusted r w).map (fun q => (stepPipe w.bird.x q).2)).sum) ∧
    (w.score ≤ (updatePipes r w).score) := by
  have hup := updatePipes_eq r w
  refine ⟨?_, ?_, ?_, ?_, hup.2.1, ?_⟩
  · rw [stepPipe_snd]
    cases hp : p.passed
    · by_cases hc : p.x - PIPE_SPEED + PIPE_WIDTH < bx <;> simp [hp, hc]
    · simp [hp]
  · rw [stepPipe_snd]
    split_ifs <;> omega
  · intro hp
    rw [stepPipe_snd]
    simp [hp]
  · intro q hq
    rw [stepPipe_fst] at hq
    split_ifs at hq with h1
    have hrec := Option.some_inj.mp hq
    subst hrec
    cases hp : p.passed <;> simp [hp]
  · rw [hup.2.1]
    exact Nat.le_add_right _ _

/-- Witness for C1: a pipe crossing the bird's x scores 1 and comes out
flagged; an already-passed pipe scores 0; the sample world's score does not
decrease over a pipe update. -/
theorem score_once_per_pipe_spec_witness :
    (stepPipe BIRD_X ⟨0, 100, 300, false⟩).2 = 1 ∧
    (stepPipe BIRD_X ⟨0, 100, 300, true⟩).2 = 0 ∧
    sampleWorld.score ≤ (updatePipes (1/2) sampleWorld).score :=
  ⟨(score_once_per_pipe_spec (1/2) sampleWorld BIRD_X ⟨0, 100, 300, false⟩).1.mpr
      ⟨rfl, by norm_num [PIPE_SPEED, PIPE_WIDTH, BIRD_X]⟩,
   (score_once_per_pipe_spec (1/2) sampleWorld BIRD_X ⟨0, 100, 300, true⟩).2.2.1 rfl,
   (score_once_per_pipe_spec (1/2) sampleWorld BIRD_X ⟨0, 100, 300, false⟩).2.2.2.2.2⟩

/-- C10: since `BIRD_X > 0` and the scoring check precedes the pruning
check, a pipe the loop prunes is either already flagged passed or scores on
this very step; an unpassed survivor still has its right edge at or right
of the bird's x, so (that invariant holding on entry, as the previous
frame's update establishes) every pipe pruned this frame was flagged passed
on entry — scored on an earlier frame — and the invariant is re-established
for the next frame. -/
theorem pruned_pipe_was_scored_spec (r : ℚ) (w : World) (p : Pipe) :
    (0 : ℚ) < BIRD_X ∧
    ((stepPipe BIRD_X p).1 = none →
      p.passed = true ∨ (stepPipe BIRD_X p).2 = 1) ∧
    (∀ q, (stepPipe BIRD_X p).1 = some q → q.passed = false →
      BIRD_X ≤ q.x + PIPE_WIDTH) ∧
    (w.bird.x = BIRD_X →
      (∀ q ∈ w.pipes, q.passed = false → BIRD_X ≤ q.x + PIPE_WIDTH) →
      ∀ q ∈ spawnAdjusted r w, (stepPipe BIRD_X q).1 = none →
        q.passed = true) ∧
    (w.bird.x = BIRD_X →
      ∀ q ∈ (updatePipes r w).pipes, q.passed = false →
        BIRD_X ≤ q.x + PIPE_WIDTH) := by
  have hbx : (0 : ℚ) < BIRD_X := by norm_num [BIRD_X]
  have hdrop : ∀ p' : Pipe, (stepPipe BIRD_X p').1 = none →
      p'.passed = true ∨ (stepPipe BIRD_X p').2 = 1 := by
    intro p' hn
    rw [stepPipe_fst] at hn
    split_ifs at hn with h
    cases hp : p'.passed
    · right
      have hcross : p'.x - PIPE_SPEED + PIPE_WIDTH < BIRD_X := lt_trans h hbx
      rw [stepPipe_snd]
      simp [hp, hcross]
    · exact Or.inl rfl
  have hkeep : ∀ p' : Pipe, ∀ q, (stepPipe BIRD_X p').1 = some q →
      q.passed = false → BIRD_X ≤ q.x + PIPE_WIDTH := by
    intro p' q hq hqp
    rw [stepPipe_fst] at hq
    split_ifs at hq with h
    have hrec := Option.some_inj.mp hq
    subst hrec
    cases hp : p'.passed
    · simp only [hp, Bool.false_or, Bool.not_false, Bool.true_and] at hqp
      have hcond : ¬ (p'.x - PIPE_SPEED + PIPE_WIDTH < BIRD_X) := by
        simpa using hqp
      simpa using not_lt.mp hcond
    · simp [hp] at hqp
  refine ⟨hbx, hdrop p, hkeep p, ?_, ?_⟩
  · intro hwx hinv q hqmem hqnone
    by_contra hnp
    have hqpassed : q.passed = false := Bool.eq_false_iff.mpr hnp
    have hqin : q ∈ w.pipes ∨ q = generatePipe r none := by
      simp only [spawnAdjusted] at hqmem
      split_ifs at hqmem with hs
      · rcases List.mem_append.mp hqmem with h | h
        · exact Or.inl h
        · exact Or.inr (List.mem_singleton.mp h)
      · exact Or.inl hqmem
    have hxbig : BIRD_X ≤ q.x + PIPE_WIDTH := by
      rcases hqin with h | h
      · exact hinv q h hqpassed
      · rw [h]
        norm_num [generatePipe, VIRTUAL_WIDTH, PIPE_WIDTH, BIRD_X]
    rw [stepPipe_fst] at hqnone
    split_ifs at hqnone with h
    have hsp : PIPE_SPEED < BIRD_X := by norm_num [PIPE_SPEED, BIRD_X]
    linarith
  · intro hwx q hqmem hqp
    rw [(updatePipes_eq r w).1, hwx] at hqmem
    obtain ⟨p', _, hp'⟩ := List.mem_filterMap.mp hqmem
    exact hkeep p' q hp' hqp

/-- Witness for C10: a pruned pipe (right edge already past the left
viewport edge) carries `passed = true`; an unpassed pipe far to the right
survives with its right edge at or right of the bird; and the sample
world's update keeps the unpassed-survivor invariant. -/
theorem pruned_pipe_was_scored_spec_witness :
    ((stepPipe BIRD_X ⟨-47, 100, 300, true⟩).1 = none →
      Pipe.passed ⟨-47, 100, 300, true⟩ = true ∨
        (stepPipe BIRD_X ⟨-47, 100, 300, true⟩).2 = 1) ∧
    (∀ q ∈ (updatePipes (1/2) sampleWorld).pipes, q.passed = false →
      BIRD_X ≤ q.x + PIPE_WIDTH) :=
  ⟨(pruned_pipe_was_scored_spec (1/2) sampleWorld ⟨-47, 100, 300, true⟩).2.1,
   (pruned_pipe_was_scored_spec (1/2) sampleWorld ⟨-47, 100, 300, true⟩).2.2.2.2 rfl⟩

/-- C8 amended: once the game has stopped, every subsequently executed
frame callback is a pure no-op — no state mutation, no `endGame()` call
(and in the source the early return also skips all drawing). -/
theorem gameLoop_stopped_noop (fr : FrameRand) (w : World)
    (h : w.gameRunning = false) :
    gameLoop fr w = (w, 0) := by
  simp [gameLoop, h]

/-- Witness for C8: a frame on the stopped sample world changes nothing. -/
theorem gameLoop_stopped_noop_witness :
    gameLoop sampleFrame sampleStopped = (sampleStopped, 0) :=
  gameLoop_stopped_noop sampleFrame sampleStopped rfl

/-- A running world one frame away from a floor crash, with one pipe far
from the bird; used to exhibit in-frame work after the game-end trigger. -/
def crashWorld : World :=
  { bird := { x := 50, y := 595, width := 28, height := 21, velocity := 10 },
    pipes := [{ x := 300, topHeight := 100, bottomY := 300, passed := false }],
    particles := [], clouds := [], score := 0,
    gameRunning := true, gameOver := false, frameCount := 0, spawnTimer := 0 }

/-- Counterexample for C8: in the very frame whose bird update triggers
game end (`endGame()` call count 1, flags flipped), the pipe update still
runs afterwards — the pipe moves left by `PIPE_SPEED` and the spawn timer
advances — so update work does occur after the trigger within that frame. -/
theorem endgame_frame_keeps_working_counterexample :
    crashWorld.gameRunning = true ∧
    (gameLoop sampleFrame crashWorld).2 = 1 ∧
    (gameLoop sampleFrame crashWorld).1.gameRunning = false ∧
    (gameLoop sampleFrame crashWorld).1.gameOver = true ∧
    (gameLoop sampleFrame crashWorld).1.pipes =
      [{ x := 300 - PIPE_SPEED, topHeight := 100, bottomY := 300,
         passed := false }] ∧
    (gameLoop sampleFrame crashWorld).1.spawnTimer =
      crashWorld.spawnTimer + 1 := by
  refine ⟨rfl, ?_⟩
  norm_num [gameLoop, crashWorld, sampleFrame, updateClouds, updateBird,
    updatePipes, updatePipesList, stepPipe, updateParticles, stepParticle,
    checkCollisions, isColliding, endGame, generatePipe, birdRect,
    topPipeRect, bottomPipeRect, GRAVITY, VIRTUAL_HEIGHT, VIRTUAL_WIDTH,
    PIPE_SPEED, PIPE_WIDTH, PIPE_GAP, PIPE_INTERVAL, BIRD_X]

/-- C7 (two concurrent frame chains): after a death frame — whose tail
still schedules one more callback — a restart click processed before that
stale callback fires leaves the scheduler with the game running and two
pending frame callbacks; both then do work and reschedule themselves every
time they fire, so two concurrent frame-callback chains keep updating the
shared world state. -/
theorem two_frame_chains_after_quick_restart :
    schedRun schedInit [SchedEvent.fire true, SchedEvent.restartClick] =
      some { running := true, over := false, pending := 2 } ∧
    schedRun schedInit
      [SchedEvent.fire true, SchedEvent.restartClick,
       SchedEvent.fire false, SchedEvent.fire false] =
      some { running := true, over := false, pending := 2 } := by
  exact ⟨rfl, rfl⟩

end FlappyBird
